import Mathlib

/-!
Shallow embedding of `src/lib/webrtc-manager.js` (class `WebrtcManager`).

The JavaScript class coordinates WebRTC perfect negotiation between peers.
Its observable behaviour is modelled as pure functions over an explicit
`Manager` / `Peer` state, together with an `Event` trace recording every
call into the external collaborators (the wrtc transport engine, the
signaling channel `sendTo`, and the console).  The transport engine itself
is out of scope for the source (it is the external `wrtc` package), so its
success or failure on each operation, and the descriptions it fabricates,
are supplied by an `Oracle` parameter; the manager code is translated
line by line from the source.

JavaScript specifics reflected in the model:
* `async` functions never throw into their caller; a throw before the
  first `await`-protected `try` still only rejects the returned promise.
  Handlers that can reject therefore return an `Except JsError Unit`
  component, and the fire-and-forget call sites in
  `signalingMessageHandler` convert a rejection into an
  `Event.unhandledRejection` trace entry (nobody awaits or catches it).
* `this.verbose` is never assigned by the constructor (the documented
  `verbose` parameter is absent from the signature), so at runtime it is
  `undefined`, i.e. falsy; `mkManager` accordingly sets `verbose := false`,
  but the handlers keep the field as a parameter exactly where the source
  reads `this.verbose`.
* `this.peers` is a plain object keyed by peer id; it is modelled as an
  association list with insertion order, `delete` as a filter on the key,
  and property lookup as `find?` on the key.
* truthiness: `bePolite` (possibly `undefined`) becomes `Option.getD false`;
  the ICE candidate check `candidate && ...` skips `null`/`undefined`.
-/

namespace WebrtcManager

/-- SDP description types (`RTCSessionDescriptionInit.type`). -/
inductive SdpType
  | offer
  | answer
  | pranswer
  | rollback
  deriving DecidableEq, Repr

/-- A session description: a type tag plus opaque SDP content
(`none` models an absent `sdp` field, as in the rollback literal). -/
structure SessionDescription where
  type : SdpType
  sdp : Option String
  deriving DecidableEq, Repr

/-- The literal `{ type: "rollback" }` from line 177 of the source. -/
def rollbackDescription : SessionDescription :=
  { type := SdpType.rollback, sdp := none }

/-- ICE candidates are opaque payloads for the manager. -/
abbrev IceCandidate := String

/-- Values of `RTCPeerConnection.signalingState`. -/
inductive SignalingState
  | stable
  | haveLocalOffer
  | haveRemoteOffer
  | haveLocalPranswer
  | haveRemotePranswer
  | closed
  deriving DecidableEq, Repr

/-- Values of `RTCPeerConnection.iceConnectionState`. -/
inductive IceConnectionState
  | connNew
  | checking
  | connected
  | completed
  | disconnected
  | failed
  | closed
  deriving DecidableEq, Repr

/-- The slice of the transport engine connection the manager observes:
its signaling state (read at line 164) and its current local description
(read at lines 137 and 189 to build outbound messages).  The engine's
internal evolution of `signalingState` is abstracted away: no handler
re-reads it after a state-changing call within the same invocation. -/
structure RTCConnection where
  signalingState : SignalingState
  localDescription : Option SessionDescription
  deriving DecidableEq, Repr

/-- The data channel created at lines 104-107. -/
structure DataChannel where
  label : String
  id : Nat
  negotiated : Bool
  deriving DecidableEq, Repr

/-- One entry of `this.peers` (lines 90-99). -/
structure Peer where
  peerId : String
  peerType : String
  polite : Bool
  rtcPeerConnection : RTCConnection
  dataChannel : Option DataChannel
  makingOffer : Bool
  ignoreOffer : Bool
  isSettingRemoteAnswerPending : Bool
  deriving DecidableEq, Repr

/-- Operations the manager invokes on the transport engine. -/
inductive EngineOp
  | createOffer
  | createAnswer
  | setLocalDescription (d : SessionDescription)
  | setRemoteDescription (d : SessionDescription)
  | addIceCandidate (c : IceCandidate)
  | restartIce
  deriving DecidableEq, Repr

/-- Outbound signaling payloads (`sendTo` second argument). -/
inductive OutMsg
  | sdp (d : Option SessionDescription)
  | ice (c : Option IceCandidate)
  deriving DecidableEq, Repr

/-- A JavaScript error value; only `TypeError`s thrown by the manager's own
code are distinguished (engine failures never escape a handler). -/
inductive JsError
  | typeError (msg : String)
  deriving DecidableEq, Repr

/-- Observable events of one manager call: engine operations (tagged with
the peer id of the connection), resource teardown, the application
data-channel callback, outbound sends, console output, and promise
rejections that no caller handles. -/
inductive Event
  | engineOp (peerId : String) (op : EngineOp)
  | closeDataChannel (peerId : String)
  | closeConnection (peerId : String)
  | dataChannelHandlerCall (peerId : String)
  | send (toPeer : String) (msg : OutMsg)
  | consoleLog (s : String)
  | consoleError (s : String)
  | unhandledRejection (e : JsError)
  deriving DecidableEq, Repr

/-- Behaviour of the external collaborators during one scenario: whether
each engine call succeeds, which descriptions the engine fabricates, and
whether the application's data-channel callback throws. -/
structure Oracle where
  createOfferResult : Except String SessionDescription
  createAnswerResult : Except String SessionDescription
  setLocalFails : SessionDescription → Bool
  setRemoteFails : SessionDescription → Bool
  addIceFails : IceCandidate → Bool
  dataChannelHandlerFails : Bool

/-- The recognized construction-time options. -/
structure Options where
  enableDataChannel : Bool
  deriving DecidableEq, Repr

/-- The `WebrtcManager` instance state (constructor, lines 20-35). -/
structure Manager where
  ourPeerId : String
  ourPeerType : String
  peers : List (String × Peer)
  options : Options
  verbose : Bool
  config : List String
  deriving DecidableEq, Repr

/-- The constructor (lines 20-35).  `this.verbose` is never assigned,
hence falsy. -/
def mkManager (ourPeerId ourPeerType : String) (options : Options) : Manager :=
  { ourPeerId := ourPeerId
    ourPeerType := ourPeerType
    peers := []
    options := options
    verbose := false
    config := ["stun:stun.l.google.com:19302",
      "stun:stun1.l.google.com:19302",
      "stun:stun2.l.google.com:19302"] }

/-- Property lookup `this.peers[id]`: `undefined` when the key is absent. -/
def lookupPeer (m : Manager) (id : String) : Option Peer :=
  (m.peers.find? (fun kv => kv.1 == id)).map (fun kv => kv.2)

/-- In-place mutation of the peer object stored under `id`. -/
def writeBack (m : Manager) (id : String) (p? : Option Peer) : Manager :=
  match p? with
  | none => m
  | some p =>
    { m with peers := m.peers.map (fun kv => if kv.1 == id then (kv.1, p) else kv) }

/-- Model of `removePeer(peer)` (lines 218-227): guarded by `if (peer)`, closes the
data channel when present, closes the connection, deletes the map entry
keyed by the peer object's own `peerId`. -/
def removePeer (m : Manager) (peer? : Option Peer) : Manager × List Event :=
  match peer? with
  | none => (m, [])
  | some peer =>
    let ev : List Event :=
      (match peer.dataChannel with
        | some _ => [Event.closeDataChannel peer.peerId]
        | none => []) ++
      [Event.closeConnection peer.peerId] ++
      (if m.verbose
        then [Event.consoleLog ("Connection with " ++ peer.peerId ++ " has been removed")]
        else [])
    ({ m with peers := m.peers.filter (fun kv => !(kv.1 == peer.peerId)) }, ev)

/-- The `peer.remove()` closure installed at line 101,
`() => this.removePeer(this.peers[peerId])`, which is also exactly what the
`close` branch of the dispatcher does at line 51: a fresh lookup of the id
followed by `removePeer`. -/
def peerRemove (m : Manager) (peerId : String) : Manager × List Event :=
  removePeer m (lookupPeer m peerId)

/-- The peer entry built by `addPeer` (lines 90-107): a fresh stable
connection, `makingOffer` / `ignoreOffer` cleared, and a data channel
labeled after the peer when `enableDataChannel` is set. -/
def freshPeer (m : Manager) (peerId peerType : String) (polite : Bool) : Peer :=
  { peerId := peerId
    peerType := peerType
    polite := polite
    rtcPeerConnection :=
      { signalingState := SignalingState.stable, localDescription := none }
    dataChannel :=
      if m.options.enableDataChannel
        then some { label := peerId ++ "Channel", id := 0, negotiated := true }
        else none
    makingOffer := false
    ignoreOffer := false
    isSettingRemoteAnswerPending := false }

/-- Model of `addPeer(peerId, peerType, polite)` (lines 85-117). -/
def addPeer (o : Oracle) (m : Manager) (peerId peerType : String) (polite : Bool) :
    Manager × List Event :=
  if (lookupPeer m peerId).isSome then
    (m, if m.verbose
      then [Event.consoleLog ("A peer connection with " ++ peerId ++ " already exists")]
      else [])
  else
    let peer : Peer := freshPeer m peerId peerType polite
    let ev : List Event :=
      if m.options.enableDataChannel then
        [Event.dataChannelHandlerCall peerId] ++
          (if o.dataChannelHandlerFails
            then [Event.consoleError ("dataChannelHandler threw")]
            else [])
      else []
    ({ m with peers := m.peers ++ [(peerId, peer)] }, ev)

/-- The `onnegotiationneeded` handler wired by `updateNegotiationLogic`
(lines 129-144): only an impolite peer creates and sends an offer; the
`finally` clause clears `makingOffer` on every path. -/
def onNegotiationNeeded (o : Oracle) (verbose : Bool) (peer : Peer) : Peer × List Event :=
  if !peer.polite then
    let peer1 := { peer with makingOffer := true }
    let ev := [Event.engineOp peer.peerId EngineOp.createOffer]
    match o.createOfferResult with
    | Except.error e =>
      ({ peer1 with makingOffer := false }, ev ++ [Event.consoleError e])
    | Except.ok offer =>
      let ev := ev ++ [Event.engineOp peer.peerId (EngineOp.setLocalDescription offer)]
      if o.setLocalFails offer then
        ({ peer1 with makingOffer := false },
          ev ++ [Event.consoleError ("setLocalDescription failed")])
      else
        let peer2 := { peer1 with
          rtcPeerConnection := { peer1.rtcPeerConnection with localDescription := some offer } }
        let ev := ev ++
          (if verbose then [Event.consoleLog ("Sending offer to " ++ peer.peerId)] else []) ++
          [Event.send peer.peerId (OutMsg.sdp peer2.rtcPeerConnection.localDescription)]
        ({ peer2 with makingOffer := false }, ev)
  else ({ peer with makingOffer := false }, [])

/-- The `onicecandidate` handler wired at line 128: every generated
candidate, the null end-of-candidates marker included, is forwarded. -/
def onIceCandidate (peer : Peer) (candidate : Option IceCandidate) : List Event :=
  [Event.send peer.peerId (OutMsg.ice candidate)]

/-- The `oniceconnectionstatechange` handler (lines 145-149). -/
def onIceConnectionStateChange (peer : Peer) (st : IceConnectionState) : List Event :=
  if st = IceConnectionState.failed
    then [Event.engineOp peer.peerId EngineOp.restartIce]
    else []

/-- Lines 179-190 of `updateSessionDescription`: apply the incoming
description as remote, and when it is an offer create, apply and send an
answer; any engine failure falls to the `catch` at line 191. -/
def sdpRemoteAndAnswer (o : Oracle) (verbose : Bool) (peer : Peer)
    (description : SessionDescription) (ev : List Event) : Option Peer × List Event :=
  let ev := ev ++ [Event.engineOp peer.peerId (EngineOp.setRemoteDescription description)]
  if o.setRemoteFails description then
    (some peer, ev ++ [Event.consoleError ("setRemoteDescription failed")])
  else if description.type = SdpType.offer then
    let ev := ev ++ [Event.engineOp peer.peerId EngineOp.createAnswer]
    match o.createAnswerResult with
    | Except.error e => (some peer, ev ++ [Event.consoleError e])
    | Except.ok answer =>
      let ev := ev ++ [Event.engineOp peer.peerId (EngineOp.setLocalDescription answer)]
      if o.setLocalFails answer then
        (some peer, ev ++ [Event.consoleError ("setLocalDescription failed")])
      else
        let peer := { peer with
          rtcPeerConnection := { peer.rtcPeerConnection with localDescription := some answer } }
        let ev := ev ++
          (if verbose then [Event.consoleLog ("Sending answer to " ++ peer.peerId)] else []) ++
          [Event.send peer.peerId (OutMsg.sdp peer.rtcPeerConnection.localDescription)]
        (some peer, ev)
  else (some peer, ev)

/-- Model of `updateSessionDescription(peer, description)` (lines 160-194). The
whole body sits inside `try { ... } catch (error) { console.error(error) }`,
so the function never rejects; calling it with an `undefined` peer (or an
`undefined` description) raises a `TypeError` inside the `try`, which is
caught and logged.  `peer.ignoreOffer` is assigned at line 165, before any
awaited call, so it keeps its new value even when a later engine call
fails. -/
def updateSessionDescription (o : Oracle) (verbose : Bool) (peer? : Option Peer)
    (description? : Option SessionDescription) : Option Peer × List Event :=
  match peer? with
  | none =>
    (none, [Event.consoleError ("TypeError: cannot read rtcPeerConnection of undefined")])
  | some peer =>
    match description? with
    | none =>
      (some peer, [Event.consoleError ("TypeError: cannot read type of undefined")])
    | some description =>
      let pc := peer.rtcPeerConnection
      let offerCollision :=
        decide (description.type = SdpType.offer) &&
          (peer.makingOffer || decide (pc.signalingState ≠ SignalingState.stable))
      let peer1 := { peer with ignoreOffer := !peer.polite && offerCollision }
      if peer1.ignoreOffer then
        (some peer1,
          if verbose
            then [Event.consoleLog ("Peer offer was ignore because we are impolite")]
            else [])
      else
        if offerCollision then
          let ev := [Event.engineOp peer1.peerId (EngineOp.setLocalDescription rollbackDescription)]
          if o.setLocalFails rollbackDescription then
            (some peer1, ev ++ [Event.consoleError ("setLocalDescription failed")])
          else
            let peer2 := { peer1 with
              rtcPeerConnection :=
                { peer1.rtcPeerConnection with localDescription := some rollbackDescription } }
            sdpRemoteAndAnswer o verbose peer2 description ev
        else
          sdpRemoteAndAnswer o verbose peer1 description []

/-- Model of `updateIceCandidate(peer, candidate)` (lines 202-210). The dereference
`peer.rtcPeerConnection` at line 203 happens OUTSIDE the `try`, so with an
`undefined` peer the async function rejects with a `TypeError`; everything
else is caught, and a caught failure is logged only when `ignoreOffer` is
false.  The function mutates nothing. -/
def updateIceCandidate (o : Oracle) (peer? : Option Peer) (candidate : Option IceCandidate) :
    List Event × Except JsError Unit :=
  match peer? with
  | none =>
    ([], Except.error (JsError.typeError ("cannot read rtcPeerConnection of undefined")))
  | some peer =>
    match candidate with
    | none => ([], Except.ok ())
    | some c =>
      let ev := [Event.engineOp peer.peerId (EngineOp.addIceCandidate c)]
      if o.addIceFails c then
        (ev ++ (if !peer.ignoreOffer then [Event.consoleLog ("addIceCandidate failed")] else []),
          Except.ok ())
      else (ev, Except.ok ())

/-- One roster entry of an `open` payload. -/
structure ConnInfo where
  peerId : String
  peerType : String
  deriving DecidableEq, Repr

/-- The inbound payload shape; destructured fields that a message may
omit are `Option`s (`undefined` when absent). -/
structure InPayload where
  action : String
  connections : Option (List ConnInfo)
  bePolite : Option Bool
  sdp : Option SessionDescription
  ice : Option IceCandidate
  deriving DecidableEq, Repr

/-- An inbound signaling message; the source field is named `from`. -/
structure Message where
  msgFrom : String
  payload : InPayload
  deriving DecidableEq, Repr

/-- Model of `signalingMessageHandler(message)` (lines 43-64). The function is NOT
async: the `TypeError` from `connections.forEach` on a malformed `open`
payload propagates to the caller (the `Except` component).  The `sdp` and
`ice` branches call async handlers without awaiting them; a rejection of
`updateIceCandidate` therefore becomes an unhandled promise rejection,
recorded in the trace. -/
def signalingMessageHandler (o : Oracle) (m : Manager) (msg : Message) :
    Manager × List Event × Except JsError Unit :=
  let pl := msg.payload
  match pl.action with
  | "open" =>
    match pl.connections with
    | none =>
      (m, [], Except.error (JsError.typeError ("cannot read forEach of undefined")))
    | some conns =>
      let r := conns.foldl
        (fun acc c =>
          let r1 := addPeer o acc.1 c.peerId c.peerType (pl.bePolite.getD false)
          (r1.1, acc.2 ++ r1.2))
        (m, ([] : List Event))
      (r.1, r.2, Except.ok ())
  | "close" =>
    let r := removePeer m (lookupPeer m msg.msgFrom)
    (r.1, r.2, Except.ok ())
  | "sdp" =>
    if m.verbose then
      match pl.sdp with
      | none => (m, [], Except.error (JsError.typeError ("cannot read type of undefined")))
      | some d =>
        let r := updateSessionDescription o m.verbose (lookupPeer m msg.msgFrom) (some d)
        (writeBack m msg.msgFrom r.1,
          [Event.consoleLog ("Received sdp from " ++ msg.msgFrom)] ++ r.2, Except.ok ())
    else
      let r := updateSessionDescription o m.verbose (lookupPeer m msg.msgFrom) pl.sdp
      (writeBack m msg.msgFrom r.1, r.2, Except.ok ())
  | "ice" =>
    let r := updateIceCandidate o (lookupPeer m msg.msgFrom) pl.ice
    match r.2 with
    | Except.error e => (m, r.1 ++ [Event.unhandledRejection e], Except.ok ())
    | Except.ok _ => (m, r.1, Except.ok ())
  | _ =>
    (m, if m.verbose then [Event.consoleLog ("Received an unknown action")] else [],
      Except.ok ())

/-- One step of the teardown loop in `signalingDisconnectHandler`. -/
def removeStep (acc : Manager × List Event) (k : String) : Manager × List Event :=
  let r := peerRemove acc.1 k
  (r.1, acc.2 ++ r.2)

/-- Model of `signalingDisconnectHandler()` (lines 72-76): iterate over the current
keys of `this.peers` in order, calling `remove()` for each. -/
def signalingDisconnectHandler (m : Manager) : Manager × List Event :=
  (m.peers.map (fun kv => kv.1)).foldl removeStep (m, [])

/-- Structural invariant of `this.peers`: each entry is stored under its
own `peerId` (established by `addPeer`, line 90). -/
abbrev keysMatch (m : Manager) : Prop :=
  ∀ kv ∈ m.peers, kv.2.peerId = kv.1

/-- Structural invariant of `this.peers`: a JavaScript object cannot hold
two properties with the same key. -/
abbrev nodupKeys (m : Manager) : Prop :=
  (m.peers.map (fun kv => kv.1)).Nodup

/-- Event classifiers used by the theorems. -/
def isSend : Event → Bool
  | Event.send _ _ => true
  | _ => false

def isCloseConnection : Event → Bool
  | Event.closeConnection _ => true
  | _ => false

def isCloseDataChannel : Event → Bool
  | Event.closeDataChannel _ => true
  | _ => false

def isConsoleError : Event → Bool
  | Event.consoleError _ => true
  | _ => false

/-! Concrete fixtures used by the witness theorems. -/

/-- A remote offer description. -/
def sampleOffer : SessionDescription := { type := SdpType.offer, sdp := some "remote-offer" }

/-- A remote answer description. -/
def sampleAnswer : SessionDescription := { type := SdpType.answer, sdp := some "local-answer" }

/-- A locally created offer description. -/
def sampleLocalOffer : SessionDescription := { type := SdpType.offer, sdp := some "local-offer" }

/-- An engine/application behaviour where every operation succeeds. -/
def noFailOracle : Oracle :=
  { createOfferResult := Except.ok sampleLocalOffer
    createAnswerResult := Except.ok sampleAnswer
    setLocalFails := fun _ => false
    setRemoteFails := fun _ => false
    addIceFails := fun _ => false
    dataChannelHandlerFails := false }

/-- Like `noFailOracle` but every `addIceCandidate` call fails. -/
def failingIceOracle : Oracle :=
  { noFailOracle with addIceFails := fun _ => true }

/-- A freshly constructed manager with no peers. -/
def emptyManager : Manager := mkManager "us" "admin" { enableDataChannel := false }

/-- An impolite peer that is in the middle of making its own offer. -/
def impoliteBusyPeer : Peer :=
  { peerId := "bob"
    peerType := "robot"
    polite := false
    rtcPeerConnection :=
      { signalingState := SignalingState.haveLocalOffer, localDescription := some sampleLocalOffer }
    dataChannel := none
    makingOffer := true
    ignoreOffer := false
    isSettingRemoteAnswerPending := false }

/-- A polite peer that is in the middle of making its own offer. -/
def politeBusyPeer : Peer :=
  { peerId := "carol"
    peerType := "robot"
    polite := true
    rtcPeerConnection :=
      { signalingState := SignalingState.haveLocalOffer, localDescription := some sampleLocalOffer }
    dataChannel := none
    makingOffer := true
    ignoreOffer := false
    isSettingRemoteAnswerPending := false }

/-- A quiescent impolite peer with a stable connection. -/
def idlePeer : Peer :=
  { peerId := "erin"
    peerType := "robot"
    polite := false
    rtcPeerConnection := { signalingState := SignalingState.stable, localDescription := none }
    dataChannel := none
    makingOffer := false
    ignoreOffer := false
    isSettingRemoteAnswerPending := false }

/-- A registered peer that owns a data channel. -/
def peerA : Peer :=
  { peerId := "a"
    peerType := "t"
    polite := false
    rtcPeerConnection := { signalingState := SignalingState.stable, localDescription := none }
    dataChannel := some { label := "aChannel", id := 0, negotiated := true }
    makingOffer := false
    ignoreOffer := false
    isSettingRemoteAnswerPending := false }

/-- A registered peer without a data channel. -/
def peerB : Peer :=
  { peerId := "b"
    peerType := "t"
    polite := true
    rtcPeerConnection := { signalingState := SignalingState.stable, localDescription := none }
    dataChannel := none
    makingOffer := false
    ignoreOffer := false
    isSettingRemoteAnswerPending := false }

/-- A manager holding the two peers above. -/
def mgrTwo : Manager := { emptyManager with peers := [("a", peerA), ("b", peerB)] }

/-- An `open` message whose payload lacks the `connections` array. -/
def openNoConnectionsMsg : Message :=
  { msgFrom := "alice"
    payload :=
      { action := "open", connections := none, bePolite := none, sdp := none, ice := none } }

/-- An `ice` message from a sender with no registered session. -/
def iceFromGhostMsg : Message :=
  { msgFrom := "ghost"
    payload :=
      { action := "ice", connections := none, bePolite := none, sdp := none,
        ice := some "candidate" } }

/-! ## Helper lemmas -/

/-- The tail of `updateSessionDescription` always produces a peer and never
touches the `ignoreOffer` flag. -/
theorem sdpRemoteAndAnswer_exists (o : Oracle) (v : Bool) (peer : Peer)
    (d : SessionDescription) (ev : List Event) :
    ∃ q, (sdpRemoteAndAnswer o v peer d ev).1 = some q ∧ q.ignoreOffer = peer.ignoreOffer := by
  unfold sdpRemoteAndAnswer
  by_cases h1 : o.setRemoteFails d = true
  · simp [h1]
  · by_cases h2 : d.type = SdpType.offer
    · cases h3 : o.createAnswerResult with
      | error e => simp [h1, h2, h3]
      | ok a =>
        by_cases h4 : o.setLocalFails a = true <;> simp [h1, h2, h3, h4]
    · simp [h1, h2]

/-- Running `updateSessionDescription` on a present peer and description always
produces a peer, whose stored `ignoreOffer` flag is exactly the boolean
computed at line 165 from the state at entry. -/
theorem updateSessionDescription_ignoreOffer (o : Oracle) (v : Bool) (p : Peer)
    (d : SessionDescription) :
    ∃ p', (updateSessionDescription o v (some p) (some d)).1 = some p' ∧
      p'.ignoreOffer = (!p.polite &&
        (decide (d.type = SdpType.offer) &&
          (p.makingOffer || decide (p.rtcPeerConnection.signalingState ≠ SignalingState.stable)))) := by
  unfold updateSessionDescription
  dsimp only
  split
  · exact ⟨_, rfl, rfl⟩
  · split
    · split
      · exact ⟨_, rfl, rfl⟩
      · obtain ⟨q, hq1, hq2⟩ := sdpRemoteAndAnswer_exists o v
          { p with ignoreOffer := !p.polite && (decide (d.type = SdpType.offer) && (p.makingOffer || decide (p.rtcPeerConnection.signalingState ≠ SignalingState.stable))), rtcPeerConnection := { p.rtcPeerConnection with localDescription := some rollbackDescription } } d
          [Event.engineOp p.peerId (EngineOp.setLocalDescription rollbackDescription)]
        exact ⟨q, hq1, hq2⟩
    · obtain ⟨q, hq1, hq2⟩ := sdpRemoteAndAnswer_exists o v
        { p with ignoreOffer := !p.polite && (decide (d.type = SdpType.offer) && (p.makingOffer || decide (p.rtcPeerConnection.signalingState ≠ SignalingState.stable))) } d []
      exact ⟨q, hq1, hq2⟩

/-- When the impolite-collision boolean of line 165 is true the handler
returns right after storing it: only `ignoreOffer` changes, the only
possible event is the verbose log. -/
theorem updateSessionDescription_ignored (o : Oracle) (v : Bool) (p : Peer)
    (d : SessionDescription)
    (h : (!p.polite &&
        (decide (d.type = SdpType.offer) &&
          (p.makingOffer || decide (p.rtcPeerConnection.signalingState ≠ SignalingState.stable)))) = true) :
    updateSessionDescription o v (some p) (some d) =
      (some { p with ignoreOffer := true },
        if v then [Event.consoleLog ("Peer offer was ignore because we are impolite")] else []) := by
  unfold updateSessionDescription
  dsimp only
  split
  · rw [h]
  · rename_i h2
    exact absurd h h2

/-! ## Claims -/

/-- C1: for every received remote description, the resulting stored
`ignoreOffer` flag is true exactly when the session is impolite and there
is an offer collision (incoming type is offer, and `makingOffer` is set or
the signaling state is not stable); and whenever it is true the handler
returns immediately: no remote or local description is applied, no answer
is sent, no error is surfaced — the peer is unchanged except for the flag
and at most a verbose console line is produced. -/
theorem c1_collision_detection_and_ignore (o : Oracle) (v : Bool) (p : Peer)
    (d : SessionDescription) :
    ∃ p', (updateSessionDescription o v (some p) (some d)).1 = some p' ∧
      (p'.ignoreOffer = true ↔
        (p.polite = false ∧ d.type = SdpType.offer ∧
          (p.makingOffer = true ∨ p.rtcPeerConnection.signalingState ≠ SignalingState.stable))) ∧
      (p'.ignoreOffer = true →
        updateSessionDescription o v (some p) (some d) =
          (some { p with ignoreOffer := true },
            if v then [Event.consoleLog ("Peer offer was ignore because we are impolite")] else [])) := by
  obtain ⟨p', h1, h2⟩ := updateSessionDescription_ignoreOffer o v p d
  refine ⟨p', h1, ?_, ?_⟩
  · rw [h2]
    simp [and_assoc]
  · intro hp
    rw [h2] at hp
    exact updateSessionDescription_ignored o v p d hp

/-- C1 witness: an impolite peer that is making an offer discards an
incoming offer with no event at all. -/
theorem c1_witness :
    updateSessionDescription noFailOracle false (some impoliteBusyPeer) (some sampleOffer) =
      (some { impoliteBusyPeer with ignoreOffer := true }, []) := by
  obtain ⟨p', h1, h2, h3⟩ := c1_collision_detection_and_ignore noFailOracle false
    impoliteBusyPeer sampleOffer
  have hp : p'.ignoreOffer = true := h2.mpr ⟨rfl, rfl, Or.inl rfl⟩
  simpa using h3 hp

/-- C10: `ignoreOffer` is recomputed on every handled description; whenever
the impolite-collision condition does not hold — any answer, or any offer
with no collision — the stored flag comes out false, so earlier suppression
of candidate errors ends at the next `sdp` message. -/
theorem c10_ignoreOffer_recomputed (o : Oracle) (v : Bool) (p : Peer) (d : SessionDescription)
    (h : ¬(p.polite = false ∧ d.type = SdpType.offer ∧
      (p.makingOffer = true ∨ p.rtcPeerConnection.signalingState ≠ SignalingState.stable))) :
    ∃ p', (updateSessionDescription o v (some p) (some d)).1 = some p' ∧
      p'.ignoreOffer = false := by
  obtain ⟨p', h1, h2⟩ := updateSessionDescription_ignoreOffer o v p d
  refine ⟨p', h1, ?_⟩
  rw [h2]
  cases hB : (!p.polite && (decide (d.type = SdpType.offer) &&
      (p.makingOffer || decide (p.rtcPeerConnection.signalingState ≠ SignalingState.stable)))) with
  | false => rfl
  | true => exact absurd (by simpa [and_assoc] using hB) h

/-- C10 witness: a peer that was ignoring an offer receives an answer and
its `ignoreOffer` flag is cleared. -/
theorem c10_witness :
    ∃ p', (updateSessionDescription noFailOracle false
      (some { impoliteBusyPeer with ignoreOffer := true })
      (some sampleAnswer)).1 = some p' ∧ p'.ignoreOffer = false :=
  c10_ignoreOffer_recomputed noFailOracle false { impoliteBusyPeer with ignoreOffer := true }
    sampleAnswer (by decide)

/-- C2: a polite peer receiving an offer during a collision first applies a
local rollback description, then applies the incoming offer as remote,
then creates an answer, applies it locally and sends it to the remote
peer as an `sdp` message — in that order (shown for a run where the engine
operations succeed; `verbose` is false at runtime since the constructor
never assigns it). -/
theorem c2_polite_rollback_then_answer (o : Oracle) (p : Peer) (d a : SessionDescription)
    (hpol : p.polite = true)
    (hoff : d.type = SdpType.offer)
    (hcol : p.makingOffer = true ∨ p.rtcPeerConnection.signalingState ≠ SignalingState.stable)
    (h1 : o.setLocalFails rollbackDescription = false)
    (h2 : o.setRemoteFails d = false)
    (h3 : o.createAnswerResult = Except.ok a)
    (h4 : o.setLocalFails a = false) :
    updateSessionDescription o false (some p) (some d) =
      (some { p with
        ignoreOffer := false
        rtcPeerConnection := { p.rtcPeerConnection with localDescription := some a } },
       [Event.engineOp p.peerId (EngineOp.setLocalDescription rollbackDescription),
        Event.engineOp p.peerId (EngineOp.setRemoteDescription d),
        Event.engineOp p.peerId EngineOp.createAnswer,
        Event.engineOp p.peerId (EngineOp.setLocalDescription a),
        Event.send p.peerId (OutMsg.sdp (some a))]) := by
  unfold updateSessionDescription sdpRemoteAndAnswer
  rcases hcol with hm | hs
  · simp [hpol, hoff, hm, h1, h2, h3, h4]
  · simp [hpol, hoff, hs, h1, h2, h3, h4]

/-- C2 witness: a concrete polite peer with an in-flight offer receives an
offer and performs rollback, remote apply, answer, and send. -/
theorem c2_witness :
    updateSessionDescription noFailOracle false (some politeBusyPeer) (some sampleOffer) =
      (some { politeBusyPeer with
        ignoreOffer := false
        rtcPeerConnection :=
          { politeBusyPeer.rtcPeerConnection with localDescription := some sampleAnswer } },
       [Event.engineOp "carol" (EngineOp.setLocalDescription rollbackDescription),
        Event.engineOp "carol" (EngineOp.setRemoteDescription sampleOffer),
        Event.engineOp "carol" EngineOp.createAnswer,
        Event.engineOp "carol" (EngineOp.setLocalDescription sampleAnswer),
        Event.send "carol" (OutMsg.sdp (some sampleAnswer))]) := by
  have h := c2_polite_rollback_then_answer noFailOracle politeBusyPeer sampleOffer sampleAnswer
    rfl rfl (Or.inl rfl) rfl rfl rfl rfl
  simpa using h

/-- Looking up a fresh id after `addPeer` finds exactly the newly built
peer entry. -/
theorem lookupPeer_addPeer (o : Oracle) (m : Manager) (id t : String) (b : Bool)
    (h : lookupPeer m id = none) :
    lookupPeer (addPeer o m id t b).1 id = some (freshPeer m id t b) := by
  unfold addPeer
  rw [h]
  simp only [Option.isSome_none, Bool.false_eq_true, if_false]
  have hf : m.peers.find? (fun kv => kv.1 == id) = none := by
    cases hf : m.peers.find? (fun kv => kv.1 == id) with
    | none => rfl
    | some kv =>
      unfold lookupPeer at h
      rw [hf] at h
      cases h
  unfold lookupPeer
  rw [List.find?_append, hf]
  simp [List.find?]

/-- Observe that `addPeer` itself never sends anything. -/
theorem addPeer_no_send (o : Oracle) (m : Manager) (id t : String) (b : Bool) :
    ((addPeer o m id t b).2).filter isSend = [] := by
  unfold addPeer
  split
  · dsimp only
    split <;> rfl
  · dsimp only
    split
    · split <;> rfl
    · rfl

/-- C4: adding a peer with `polite = false` and then firing one
negotiation-needed event produces exactly one outbound message: an `sdp`
message addressed to that peer carrying the created offer as the local
description (for an engine run where offer creation and local application
succeed); a peer added with `polite = true` produces no event at all on
negotiation-needed. -/
theorem c4_impolite_offers_polite_waits (o : Oracle) (m : Manager) (id t : String)
    (offer : SessionDescription)
    (hfresh : lookupPeer m id = none)
    (hoff : o.createOfferResult = Except.ok offer)
    (hsl : o.setLocalFails offer = false) :
    (∃ p, lookupPeer (addPeer o m id t false).1 id = some p ∧ p.polite = false ∧
      ((addPeer o m id t false).2 ++
        (onNegotiationNeeded o (addPeer o m id t false).1.verbose p).2).filter isSend =
        [Event.send id (OutMsg.sdp (some offer))]) ∧
    (∀ q, lookupPeer (addPeer o m id t true).1 id = some q →
      (onNegotiationNeeded o (addPeer o m id t true).1.verbose q).2 = []) := by
  constructor
  · refine ⟨freshPeer m id t false, lookupPeer_addPeer o m id t false hfresh, rfl, ?_⟩
    rw [List.filter_append, addPeer_no_send]
    unfold onNegotiationNeeded
    generalize (addPeer o m id t false).1.verbose = v
    cases v <;> simp [freshPeer, hoff, hsl, isSend]
  · intro q hq
    rw [lookupPeer_addPeer o m id t true hfresh] at hq
    injection hq with h
    rw [← h]
    rfl

/-- C4 witness: concrete round trip on a fresh manager. -/
theorem c4_witness :
    (∃ p, lookupPeer (addPeer noFailOracle emptyManager "dave" "robot" false).1 "dave" = some p ∧
      p.polite = false ∧
      ((addPeer noFailOracle emptyManager "dave" "robot" false).2 ++
        (onNegotiationNeeded noFailOracle
          (addPeer noFailOracle emptyManager "dave" "robot" false).1.verbose p).2).filter isSend =
        [Event.send "dave" (OutMsg.sdp (some sampleLocalOffer))]) ∧
    (∀ q, lookupPeer (addPeer noFailOracle emptyManager "dave" "robot" true).1 "dave" = some q →
      (onNegotiationNeeded noFailOracle
        (addPeer noFailOracle emptyManager "dave" "robot" true).1.verbose q).2 = []) :=
  c4_impolite_offers_polite_waits noFailOracle emptyManager "dave" "robot" sampleLocalOffer
    rfl rfl rfl

/-- C5: delivering the null end-of-candidates terminator to
`updateIceCandidate` performs no `addIceCandidate` engine call, produces
no event at all, and resolves without error. -/
theorem c5_null_candidate_is_noop (o : Oracle) (p : Peer) :
    updateIceCandidate o (some p) none = ([], Except.ok ()) := rfl

/-- C6: when applying a non-null remote ICE candidate fails, the call is
attempted once, the failure is logged exactly when `ignoreOffer` is false
and suppressed when it is true, and the handler still resolves without
error (the peer object is not modified at all by `updateIceCandidate`). -/
theorem c6_ice_failure_suppressed_iff_ignoreOffer (o : Oracle) (p : Peer) (c : IceCandidate)
    (h : o.addIceFails c = true) :
    updateIceCandidate o (some p) (some c) =
      ([Event.engineOp p.peerId (EngineOp.addIceCandidate c)] ++
        (if p.ignoreOffer then [] else [Event.consoleLog ("addIceCandidate failed")]),
       Except.ok ()) := by
  unfold updateIceCandidate
  cases hio : p.ignoreOffer <;> simp [h, hio]

/-- C6 witness: a failing candidate application on a peer with
`ignoreOffer = false` is logged and does not propagate. -/
theorem c6_witness :
    updateIceCandidate failingIceOracle (some impoliteBusyPeer) (some "cand") =
      ([Event.engineOp "bob" (EngineOp.addIceCandidate "cand"),
        Event.consoleLog ("addIceCandidate failed")], Except.ok ()) := by
  have h := c6_ice_failure_suppressed_iff_ignoreOffer failingIceOracle impoliteBusyPeer "cand" rfl
  simpa [impoliteBusyPeer] using h

/-- Absence of a key in the session map, characterized entrywise. -/
theorem lookupPeer_eq_none_iff (m : Manager) (k : String) :
    lookupPeer m k = none ↔ ∀ kv ∈ m.peers, kv.1 ≠ k := by
  unfold lookupPeer
  rw [Option.map_eq_none']
  rw [List.find?_eq_none]
  simp

/-- Under the key invariant, a found peer is stored under its own id. -/
theorem lookupPeer_peerId (m : Manager) (k : String) (p : Peer)
    (hinv : keysMatch m) (h : lookupPeer m k = some p) : p.peerId = k := by
  unfold lookupPeer at h
  cases hf : m.peers.find? (fun kv => kv.1 == k) with
  | none => rw [hf] at h; cases h
  | some kv =>
    rw [hf] at h
    have hmem := List.mem_of_find?_eq_some hf
    have hbeq := List.find?_some hf
    have hk : kv.1 = k := by simpa using hbeq
    have hpid := hinv kv hmem
    have hv : kv.2 = p := by simpa using h
    rw [← hv, hpid, hk]

/-- Removing a peer by id filters exactly that key out of the map. -/
theorem peerRemove_peers (m : Manager) (k : String) (hinv : keysMatch m) :
    (peerRemove m k).1.peers = m.peers.filter (fun kv => !(kv.1 == k)) := by
  unfold peerRemove
  cases hl : lookupPeer m k with
  | none =>
    unfold removePeer
    dsimp only
    symm
    rw [List.filter_eq_self]
    intro kv hkv
    have := (lookupPeer_eq_none_iff m k).mp hl kv hkv
    simpa using this
  | some p =>
    have hp := lookupPeer_peerId m k p hinv hl
    unfold removePeer
    dsimp only
    rw [hp]

/-- The key invariant is preserved by removal. -/
theorem keysMatch_peerRemove (m : Manager) (k : String) (hinv : keysMatch m) :
    keysMatch (peerRemove m k).1 := by
  intro kv hkv
  rw [peerRemove_peers m k hinv] at hkv
  exact hinv kv (List.mem_filter.mp hkv).1

/-- Key uniqueness is preserved by removal. -/
theorem nodupKeys_peerRemove (m : Manager) (k : String) (hinv : keysMatch m)
    (hnd : nodupKeys m) : nodupKeys (peerRemove m k).1 := by
  show ((peerRemove m k).1.peers.map (fun kv => kv.1)).Nodup
  rw [peerRemove_peers m k hinv]
  exact hnd.sublist ((List.filter_sublist _).map _)

/-- Folding teardown over a key list filters all those keys out. -/
theorem foldRemove_peers (ks : List String) (m : Manager) (evs : List Event)
    (hinv : keysMatch m) :
    ((ks.foldl removeStep (m, evs)).1).peers =
      m.peers.filter (fun kv => !(ks.contains kv.1)) := by
  induction ks generalizing m evs with
  | nil =>
    dsimp only [List.foldl]
    symm
    rw [List.filter_eq_self]
    intro kv _
    rfl
  | cons k ks ih =>
    rw [List.foldl_cons]
    have hstep : removeStep (m, evs) k = ((peerRemove m k).1, evs ++ (peerRemove m k).2) := rfl
    rw [hstep]
    rw [ih (peerRemove m k).1 (evs ++ (peerRemove m k).2) (keysMatch_peerRemove m k hinv)]
    rw [peerRemove_peers m k hinv]
    rw [List.filter_filter]
    apply List.filter_congr
    intro kv _
    rw [List.contains_cons]
    cases h1 : kv.1 == k <;> cases h2 : ks.contains kv.1 <;> rfl

/-- Events already accumulated survive the rest of the teardown fold. -/
theorem foldRemove_events_mono (ks : List String) (st : Manager × List Event) (e : Event)
    (h : e ∈ st.2) : e ∈ (ks.foldl removeStep st).2 := by
  induction ks generalizing st with
  | nil => simpa using h
  | cons k ks ih =>
    rw [List.foldl_cons]
    apply ih
    have hstep : (removeStep st k).2 = st.2 ++ (peerRemove st.1 k).2 := rfl
    rw [hstep]
    exact List.mem_append_left _ h

/-- With unique keys, `find?` on the key of a member returns that member. -/
theorem find?_key_of_nodup (l : List (String × Peer)) (k : String) (p : Peer)
    (hnd : (l.map (fun kv => kv.1)).Nodup) (hmem : (k, p) ∈ l) :
    l.find? (fun kv => kv.1 == k) = some (k, p) := by
  induction l with
  | nil => cases hmem
  | cons hd tl ih =>
    rcases List.mem_cons.mp hmem with heq | hmem2
    · rw [← heq]
      apply List.find?_cons_of_pos
      simp
    · rw [List.map_cons] at hnd
      have hnd2 := List.nodup_cons.mp hnd
      have hne : hd.1 ≠ k := by
        intro hb
        apply hnd2.1
        rw [hb]
        exact List.mem_map_of_mem (fun kv => kv.1) hmem2
      rw [List.find?_cons_of_neg]
      · exact ih hnd2.2 hmem2
      · simp [hne]

/-- Every member whose key occurs in the processed list gets its connection
(and data channel, when present) closed by the teardown fold. -/
theorem foldRemove_closes (ks : List String) (m : Manager) (evs : List Event)
    (hinv : keysMatch m) (hnd : nodupKeys m) :
    ∀ k p, (k, p) ∈ m.peers → k ∈ ks →
      Event.closeConnection k ∈ (ks.foldl removeStep (m, evs)).2 ∧
      (p.dataChannel.isSome = true →
        Event.closeDataChannel k ∈ (ks.foldl removeStep (m, evs)).2) := by
  induction ks generalizing m evs with
  | nil =>
    intro k p _ hk
    cases hk
  | cons k0 ks ih =>
    intro k p hmem hk
    rw [List.foldl_cons]
    by_cases hkk : k = k0
    · subst hkk
      have hf : m.peers.find? (fun kv => kv.1 == k) = some (k, p) :=
        find?_key_of_nodup m.peers k p hnd hmem
      have hlp : lookupPeer m k = some p := by
        unfold lookupPeer
        rw [hf]
        rfl
      have hpid : p.peerId = k := hinv (k, p) hmem
      have hstep : removeStep (m, evs) k = ((peerRemove m k).1, evs ++ (peerRemove m k).2) := rfl
      have hremove : (peerRemove m k).2 =
          (match p.dataChannel with
            | some _ => [Event.closeDataChannel k]
            | none => []) ++ [Event.closeConnection k] ++
          (if m.verbose
            then [Event.consoleLog ("Connection with " ++ k ++ " has been removed")]
            else []) := by
        unfold peerRemove
        rw [hlp]
        unfold removePeer
        dsimp only
        rw [hpid]
      rw [hstep]
      constructor
      · apply foldRemove_events_mono
        dsimp only
        rw [hremove]
        cases p.dataChannel <;> simp
      · intro hdc
        apply foldRemove_events_mono
        dsimp only
        rw [hremove]
        cases hdcc : p.dataChannel with
        | none => rw [hdcc] at hdc; cases hdc
        | some dc => simp
    · have hk2 : k ∈ ks := by
        rcases List.mem_cons.mp hk with h | h
        · exact absurd h hkk
        · exact h
      have hmem2 : (k, p) ∈ (peerRemove m k0).1.peers := by
        rw [peerRemove_peers m k0 hinv]
        refine List.mem_filter.mpr ⟨hmem, ?_⟩
        simpa using hkk
      have hstep : removeStep (m, evs) k0 = ((peerRemove m k0).1, evs ++ (peerRemove m k0).2) := rfl
      rw [hstep]
      exact ih (peerRemove m k0).1 (evs ++ (peerRemove m k0).2)
        (keysMatch_peerRemove m k0 hinv) (nodupKeys_peerRemove m k0 hinv hnd) k p hmem2 hk2

/-- C7: peer removal is idempotent.  After removing a peer id the map no
longer holds it, a second removal of the same id is a complete no-op (no
event, no release), the first removal closes the connection and the data
channel at most once each, and removing an id with no session does
nothing. -/
theorem c7_removePeer_idempotent (m : Manager) (k : String) (hinv : keysMatch m) :
    lookupPeer (peerRemove m k).1 k = none ∧
    peerRemove (peerRemove m k).1 k = ((peerRemove m k).1, []) ∧
    (peerRemove m k).2.countP isCloseConnection ≤ 1 ∧
    (peerRemove m k).2.countP isCloseDataChannel ≤ 1 ∧
    (lookupPeer m k = none → peerRemove m k = (m, [])) := by
  have hnone : lookupPeer (peerRemove m k).1 k = none := by
    rw [lookupPeer_eq_none_iff]
    intro kv hkv
    rw [peerRemove_peers m k hinv] at hkv
    have := (List.mem_filter.mp hkv).2
    simpa using this
  have hcount : (peerRemove m k).2.countP isCloseConnection ≤ 1 ∧
      (peerRemove m k).2.countP isCloseDataChannel ≤ 1 := by
    cases hl : lookupPeer m k with
    | none =>
      unfold peerRemove
      rw [hl]
      constructor <;> simp [removePeer]
    | some p =>
      unfold peerRemove
      rw [hl]
      unfold removePeer
      dsimp only
      cases p.dataChannel <;> cases hv : m.verbose <;>
        constructor <;> simp [isCloseConnection, isCloseDataChannel]
  refine ⟨hnone, ?_, hcount.1, hcount.2, ?_⟩
  · have heq : peerRemove (peerRemove m k).1 k =
        removePeer (peerRemove m k).1 (lookupPeer (peerRemove m k).1 k) := rfl
    rw [heq, hnone]
    rfl
  · intro hl
    have heq : peerRemove m k = removePeer m (lookupPeer m k) := rfl
    rw [heq, hl]
    rfl

/-- C7 witness: removing peer `a` twice from the two-peer manager. -/
theorem c7_witness :
    lookupPeer (peerRemove mgrTwo "a").1 "a" = none ∧
    peerRemove (peerRemove mgrTwo "a").1 "a" = ((peerRemove mgrTwo "a").1, []) ∧
    (peerRemove mgrTwo "a").2.countP isCloseConnection ≤ 1 ∧
    (peerRemove mgrTwo "a").2.countP isCloseDataChannel ≤ 1 ∧
    (lookupPeer mgrTwo "a" = none → peerRemove mgrTwo "a" = (mgrTwo, [])) :=
  c7_removePeer_idempotent mgrTwo "a" (by decide)

/-- C8: when the signaling relay disconnects, the handler tears every
session down: afterwards the session map is empty and, for every session
present at disconnect time, its connection — and its data channel, when it
had one — was closed (the handler is a total function: no exception can
escape it). -/
theorem c8_disconnect_clears_all (m : Manager) (h1 : keysMatch m) (h2 : nodupKeys m) :
    (signalingDisconnectHandler m).1.peers = [] ∧
    ∀ kv ∈ m.peers,
      Event.closeConnection kv.1 ∈ (signalingDisconnectHandler m).2 ∧
      (kv.2.dataChannel.isSome = true →
        Event.closeDataChannel kv.1 ∈ (signalingDisconnectHandler m).2) := by
  constructor
  · unfold signalingDisconnectHandler
    rw [foldRemove_peers _ m [] h1]
    rw [List.filter_eq_nil_iff]
    intro kv hkv
    have hmem : kv.1 ∈ m.peers.map (fun kv2 => kv2.1) :=
      List.mem_map_of_mem (fun kv2 => kv2.1) hkv
    have hc : (m.peers.map (fun kv2 => kv2.1)).contains kv.1 = true := by
      simpa using hmem
    rw [hc]
    simp
  · intro kv hkv
    unfold signalingDisconnectHandler
    have hk : kv.1 ∈ m.peers.map (fun kv2 => kv2.1) :=
      List.mem_map_of_mem (fun kv2 => kv2.1) hkv
    exact foldRemove_closes (m.peers.map (fun kv2 => kv2.1)) m [] h1 h2 kv.1 kv.2 hkv hk

/-- C8 witness: disconnect on the two-peer manager empties the map and
closes both connections and the one data channel. -/
theorem c8_witness :
    (signalingDisconnectHandler mgrTwo).1.peers = [] ∧
    Event.closeConnection "a" ∈ (signalingDisconnectHandler mgrTwo).2 ∧
    Event.closeDataChannel "a" ∈ (signalingDisconnectHandler mgrTwo).2 ∧
    Event.closeConnection "b" ∈ (signalingDisconnectHandler mgrTwo).2 := by
  have h := c8_disconnect_clears_all mgrTwo (by decide) (by decide)
  refine ⟨h.1, ?_, ?_, ?_⟩
  · exact (h.2 ("a", peerA) (by decide)).1
  · exact (h.2 ("a", peerA) (by decide)).2 (by decide)
  · exact (h.2 ("b", peerB) (by decide)).1

/-- C9: an `open` message whose payload lacks the `connections` array makes
`signalingMessageHandler` throw a `TypeError` (`connections.forEach` on
`undefined`, line 48): the dispatcher is not total over malformed `open`
payloads. -/
theorem c9_open_without_connections_throws :
    signalingMessageHandler noFailOracle emptyManager openNoConnectionsMsg =
      (emptyManager, [], Except.error (JsError.typeError ("cannot read forEach of undefined"))) :=
  rfl

/-- C3 (code bug, `ice` branch): an `ice` message from a peer id with no
session leaves the session map unchanged and performs no engine call, but
it is not a silent no-op: `updateIceCandidate` dereferences the
`undefined` peer at line 203, OUTSIDE its `try`, so the `TypeError`
escapes every handler as an unhandled promise rejection instead of being
swallowed.  (The `close` and `sdp` branches do satisfy the claim: `close`
is guarded by `if (peer)` and the whole body of `updateSessionDescription`
sits inside a `try`.) -/
theorem c3_ice_unknown_peer_leaks_rejection :
    signalingMessageHandler noFailOracle emptyManager iceFromGhostMsg =
      (emptyManager,
        [Event.unhandledRejection (JsError.typeError ("cannot read rtcPeerConnection of undefined"))],
        Except.ok ()) :=
  rfl

end WebrtcManager
